import Mathlib

set_option maxRecDepth 100000

/-!
Verification development for the naviga8 route-saving HTTP service
(src/index.js, final version of the server: the Express handlers
"/save-route", "/routes", "/delete-route/:id" and "/api/google-key").

The handlers are embedded shallowly:

* Request-body values arriving through express.json are modelled by the
  JSON-like type JVal (JavaScript numbers are modelled as integers; NaN
  and floating point are not needed by any handler check here).
  JavaScript truthiness of such a value is JVal.truthy.
* The Mongo collection behind mongoose is modelled as a plain list of
  Route records.  Route.findOne / Route.find / Route.findOneAndDelete
  become list search, filter-sort-take and first-match removal; a
  successful newRoute.save appends the document built by the handler.
  Mongoose casts a query/save value for the String path userId with
  String(value) for strings, numbers and booleans, and raises a
  CastError (caught, HTTP 500) for objects and arrays; castString
  models exactly that.
* The schema declares origin.address and destination.address as
  String, required: true, trim: true (src/index.js lines 144-150, and
  userId as String, required: true).  Accordingly the save path first
  re-trims both address paths at document construction (the trim
  setter, applied by new Route(...)), and then save() rejects an empty
  string on any required path with a ValidationError, which the
  handler's catch turns into HTTP 500 with nothing persisted.  The
  findOne duplicate check runs before new Route(...) and uses the
  handler's sanitized values unchanged.
* JavaScript String.prototype.trim is modelled by jsTrim (dropping
  leading and trailing whitespace characters) and .substring(0, 200)
  by jsSubstring taking the first 200 characters (code points instead
  of UTF-16 code units; no handler check depends on the difference).
* An HTTP response is a status code plus the JSON payload shape the
  handler sends.
-/

/-- A JSON-ish JavaScript value as delivered by the express body/query
parsers.  An absent object field destructures to undefined, exactly as
in the handlers. -/
inductive JVal where
  | undefined : JVal
  | null : JVal
  | bool : Bool → JVal
  | num : Int → JVal
  | str : String → JVal
  | obj : List (String × JVal) → JVal
  | arr : List JVal → JVal

/-- JavaScript truthiness: undefined, null, false, 0 and "" are falsy;
every object and array is truthy. -/
def JVal.truthy : JVal → Bool
  | .undefined => false
  | .null => false
  | .bool b => b
  | .num n => !(n == 0)
  | .str s => !(s == "")
  | .obj _ => true
  | .arr _ => true

/-- Field lookup in an object literal (parsed JSON has distinct keys). -/
def findField : List (String × JVal) → String → JVal
  | [], _ => .undefined
  | (k, v) :: rest, key => if k = key then v else findField rest key

/-- JavaScript property access o.k: undefined on every non-object
(the handlers only ever access a property of a truthy value, so the
null/undefined TypeError cases are unreachable). -/
def JVal.getField : JVal → String → JVal
  | .obj fields, key => findField fields key
  | _, _ => .undefined

/-- JavaScript a || b : the first operand when truthy, otherwise the
second. -/
def jsOr (a b : JVal) : JVal :=
  if a.truthy then a else b

/-- Drop leading whitespace characters from a character list. -/
def dropLeadingWs : List Char → List Char
  | [] => []
  | c :: cs => if c.isWhitespace then dropLeadingWs cs else c :: cs

/-- JavaScript String.prototype.trim: remove leading and trailing
whitespace. -/
def jsTrim (s : String) : String :=
  ⟨(dropLeadingWs (dropLeadingWs s.data).reverse).reverse⟩

/-- JavaScript String.prototype.substring(0, n): the first n
characters. -/
def jsSubstring (s : String) (n : Nat) : String :=
  ⟨s.data.take n⟩

/-- A 199-character address stem, used to exhibit the truncation edge
case in which the 200-character cap exposes trailing whitespace. -/
def xs199 : String := ⟨List.replicate 199 'x'⟩

/-- An address input whose trimmed form has a space at index 199: the
sanitize cap keeps that space, and the schema's trim setter then
removes it again at document construction. -/
def longOrigin : String := ⟨List.replicate 199 'x' ++ [' ', 'y']⟩

/-- The handler's sanitize helper (src/index.js): non-strings become
the empty string; strings are trimmed and capped at 200 characters. -/
def sanitize (v : JVal) : String :=
  match v with
  | .str s => jsSubstring (jsTrim s) 200
  | _ => ""

/-- The origin/destination normalisation of the save handler:
typeof x === "string" ? sanitize(x) : sanitize(x.address || ""). -/
def normalizeAddress (v : JVal) : String :=
  match v with
  | .str _ => sanitize v
  | _ => sanitize (jsOr (v.getField "address") (.str ""))

/-- Mongoose cast of a value used for the String path userId, both in a
query filter and at save time: strings pass through, numbers and
booleans stringify; objects, arrays, null and undefined do not cast
(CastError, surfaced as a generic 500 by the catch block). -/
def castString : JVal → Option String
  | .str s => some s
  | .num n => some (toString n)
  | .bool b => some (if b then "true" else "false")
  | _ => none

/-- A persisted Route document: id and createdAt are assigned by the
store at creation; the nested origin.address / destination.address
string paths are flattened to two fields. -/
structure Route where
  id : Nat
  userId : String
  originAddress : String
  destinationAddress : String
  createdAt : Nat
deriving DecidableEq, Repr

/-- The (userId, origin.address, destination.address) triple of a
record. -/
def tripleOf (r : Route) : String × String × String :=
  (r.userId, r.originAddress, r.destinationAddress)

/-- The JSON payload shapes the four handlers send. -/
inductive ResPayload where
  | msg : String → ResPayload
  | route : Route → ResPayload
  | routes : List Route → ResPayload
  | deleted : String → Nat → ResPayload
  | key : String → ResPayload
deriving DecidableEq, Repr

/-- An HTTP response: status code plus JSON payload. -/
structure Response where
  status : Nat
  payload : ResPayload
deriving DecidableEq, Repr

/-- The parsed body of a POST /save-route request; a field absent from
the JSON body destructures to JVal.undefined. -/
structure SaveBody where
  userId : JVal
  origin : JVal
  destination : JVal

/-- Truthiness of an optional string (a query parameter or an
environment variable): absent and empty are falsy, matching the
JavaScript !x guards. -/
def strTruthy : Option String → Bool
  | none => false
  | some s => !(s == "")

/-- The findOne filter of the save handler: equality on the
(userId, origin.address, destination.address) triple. -/
def matchesTriple (uid oA dA : String) (r : Route) : Bool :=
  r.userId == uid && r.originAddress == oA && r.destinationAddress == dA

/-- POST /save-route (src/index.js).  Validates truthiness of the three
body fields, normalises the two addresses, checks for an existing
record with the same triple (the findOne filter uses the sanitized
values as the handler built them), then constructs the document:
new Route(...) applies the schema's trim setter to both address paths,
and save() enforces required: true, rejecting an empty userId or
address with a ValidationError that the catch block turns into 500.
On success the persisted (post-setter) document is returned (id and
createdAt assigned by the store, passed in as newId/now). -/
def saveRoute (store : List Route) (body : SaveBody) (newId now : Nat) :
    Response × List Route :=
  if !(body.userId.truthy && body.origin.truthy && body.destination.truthy) then
    (⟨400, .msg "All fields are required"⟩, store)
  else
    match castString body.userId with
    | none => (⟨500, .msg "Failed to save route"⟩, store)
    | some uid =>
      if store.any (matchesTriple uid (normalizeAddress body.origin)
          (normalizeAddress body.destination)) then
        (⟨409, .msg "Route already saved!"⟩, store)
      else
        if uid == "" || jsTrim (normalizeAddress body.origin) == "" ||
            jsTrim (normalizeAddress body.destination) == "" then
          (⟨500, .msg "Failed to save route"⟩, store)
        else
          (⟨200, .route ⟨newId, uid, jsTrim (normalizeAddress body.origin),
              jsTrim (normalizeAddress body.destination), now⟩⟩,
            store ++ [⟨newId, uid, jsTrim (normalizeAddress body.origin),
              jsTrim (normalizeAddress body.destination), now⟩])

/-- The sort key of GET /routes: .sort with createdAt -1, newest
first. -/
def byNewest (a b : Route) : Prop := b.createdAt ≤ a.createdAt

instance : DecidableRel byNewest := fun a b => Nat.decLe b.createdAt a.createdAt

instance : IsTotal Route byNewest := ⟨fun a b => Nat.le_total b.createdAt a.createdAt⟩

instance : IsTrans Route byNewest := ⟨fun _ _ _ h1 h2 => Nat.le_trans h2 h1⟩

/-- GET /routes (src/index.js).  Requires a truthy userId query
parameter, then returns that user's records sorted by createdAt
descending, limited to 50. -/
def listRoutes (store : List Route) (userId : Option String) :
    Response × List Route :=
  if !(strTruthy userId) then
    (⟨400, .msg "User ID required"⟩, store)
  else
    (⟨200, .routes ((List.insertionSort byNewest
        (store.filter (fun r => r.userId == userId.getD ""))).take 50)⟩, store)

/-- The findOneAndDelete filter of the delete handler: equality on both
_id and userId. -/
def matchesIdUser (id : Nat) (uid : String) (r : Route) : Bool :=
  r.id == id && r.userId == uid

/-- DELETE /delete-route/:id (src/index.js).  Requires a truthy userId
query parameter, then deletes the first record matching both the path
id and the userId.  The handler's !id guard cannot fire: an express
path parameter of a matched route is a non-empty string, and ids are
modelled as opaque naturals. -/
def deleteRoute (store : List Route) (id : Nat) (userId : Option String) :
    Response × List Route :=
  if !(strTruthy userId) then
    (⟨400, .msg "User ID required"⟩, store)
  else
    if store.any (matchesIdUser id (userId.getD "")) then
      (⟨200, .deleted "Route deleted successfully" id⟩,
        store.eraseP (matchesIdUser id (userId.getD "")))
    else
      (⟨404, .msg "Route not found"⟩, store)

/-- GET /api/google-key (src/index.js).  Reads the configured
GOOGLE_MAPS_API_KEY (absent environment variable = none); a falsy
value yields 500, otherwise the exact value is returned.  The handler
never touches the Route collection, made explicit by passing the store
through unchanged. -/
def googleKey (store : List Route) (key : Option String) :
    Response × List Route :=
  if !(strTruthy key) then
    (⟨500, .msg "API key not configured"⟩, store)
  else
    (⟨200, .key (key.getD "")⟩, store)

/-- One sequential operation against the store: the three Route
handlers (the id and createdAt a create would assign are supplied by
the store environment). -/
inductive Op where
  | save : SaveBody → Nat → Nat → Op
  | list : Option String → Op
  | del : Nat → Option String → Op

/-- Sequential execution of one operation. -/
def step (store : List Route) : Op → Response × List Route
  | .save body newId now => saveRoute store body newId now
  | .list userId => listRoutes store userId
  | .del id userId => deleteRoute store id userId

/-- No two records of the store share the same
(userId, origin.address, destination.address) triple. -/
def UniqueTriples (store : List Route) : Prop :=
  store.Pairwise (fun a b => tripleOf a ≠ tripleOf b)

instance (store : List Route) : Decidable (UniqueTriples store) :=
  List.instDecidablePairwise store

/-- The origin/destination shape the spec describes: either the string
s itself, or an object-shaped (non-string) value whose address field is
the string s. -/
def AddrShape (v : JVal) (s : String) : Prop :=
  v = .str s ∨ ((∀ u, v ≠ .str u) ∧ v.getField "address" = .str s)

lemma matchesTriple_eq_true {uid oA dA : String} {r : Route} :
    matchesTriple uid oA dA r = true ↔
      (r.userId = uid ∧ r.originAddress = oA ∧ r.destinationAddress = dA) := by
  simp [matchesTriple, and_assoc]

lemma matchesIdUser_eq_true {id : Nat} {uid : String} {r : Route} :
    matchesIdUser id uid r = true ↔ (r.id = id ∧ r.userId = uid) := by
  simp [matchesIdUser]

lemma normalizeAddress_of_addrShape {v : JVal} {s : String} (h : AddrShape v s) :
    normalizeAddress v = jsSubstring (jsTrim s) 200 := by
  have key : ∀ t : String, sanitize (jsOr (.str t) (.str "")) =
      jsSubstring (jsTrim t) 200 := by
    intro t
    by_cases ht : t = ""
    · subst ht; rfl
    · simp [jsOr, JVal.truthy, ht, sanitize]
  rcases h with h | ⟨hns, hf⟩
  · subst h; rfl
  · cases v with
    | str u => exact absurd rfl (hns u)
    | obj fields =>
        simp only [JVal.getField] at hf
        simp only [normalizeAddress, JVal.getField, hf]
        exact key s
    | undefined => simp [JVal.getField] at hf
    | null => simp [JVal.getField] at hf
    | bool b => simp [JVal.getField] at hf
    | num n => simp [JVal.getField] at hf
    | arr xs => simp [JVal.getField] at hf

lemma truthy_of_normalizeAddress_ne {v : JVal} (h : normalizeAddress v ≠ "") :
    v.truthy = true := by
  cases v with
  | obj fields => rfl
  | arr xs => rfl
  | str s =>
      by_cases hs : s = ""
      · subst hs; exact absurd rfl h
      · simp [JVal.truthy, hs]
  | undefined => exact absurd rfl h
  | null => exact absurd rfl h
  | bool b => exact absurd rfl h
  | num n => exact absurd rfl h

lemma countP_matchesTriple_eq_one {store : List Route} {r : Route}
    (hu : UniqueTriples store) (hr : r ∈ store) :
    store.countP
      (matchesTriple r.userId r.originAddress r.destinationAddress) = 1 := by
  unfold UniqueTriples at hu
  induction store with
  | nil => cases hr
  | cons a t ih =>
      rcases List.pairwise_cons.mp hu with ⟨ha, ht⟩
      rcases List.mem_cons.mp hr with h | h
      · subst h
        rw [List.countP_cons_of_pos _ _
              (matchesTriple_eq_true.mpr ⟨rfl, rfl, rfl⟩)]
        have hzero : t.countP
            (matchesTriple r.userId r.originAddress r.destinationAddress) = 0 := by
          rw [List.countP_eq_zero]
          intro b hb hmb
          rcases matchesTriple_eq_true.mp hmb with ⟨h1, h2, h3⟩
          exact ha b hb (by simp [tripleOf, h1, h2, h3])
        omega
      · rw [List.countP_cons_of_neg]
        · exact ih ht h
        · intro hma
          rcases matchesTriple_eq_true.mp hma with ⟨h1, h2, h3⟩
          exact ha r h (by simp [tripleOf, h1, h2, h3])

lemma eq_of_mem_of_id_eq {store : List Route}
    (hp : store.Pairwise (fun a b => a.id ≠ b.id))
    {a b : Route} (ha : a ∈ store) (hb : b ∈ store) (hid : a.id = b.id) :
    a = b := by
  by_contra hne
  have hsymm : Symmetric (fun a b : Route => a.id ≠ b.id) := by
    intro x y hxy e
    exact hxy e.symm
  exact (List.Pairwise.forall hsymm hp ha hb hne) hid

lemma saveRoute_ok_inv {store store1 : List Route} {body : SaveBody}
    {newId now : Nat} {r : Route}
    (h : saveRoute store body newId now = (⟨200, .route r⟩, store1)) :
    (body.userId.truthy && body.origin.truthy && body.destination.truthy) = true ∧
    castString body.userId = some r.userId ∧
    store.any (matchesTriple r.userId (normalizeAddress body.origin)
      (normalizeAddress body.destination)) = false ∧
    r = ⟨newId, r.userId, jsTrim (normalizeAddress body.origin),
      jsTrim (normalizeAddress body.destination), now⟩ ∧
    store1 = store ++ [r] := by
  unfold saveRoute at h
  split at h
  · exact absurd (congrArg (fun p => p.1.status) h) (by simp)
  next hcond =>
    split at h
    · exact absurd (congrArg (fun p => p.1.status) h) (by simp)
    next uid hcast =>
      split at h
      · exact absurd (congrArg (fun p => p.1.status) h) (by simp)
      next hany =>
        split at h
        · exact absurd (congrArg (fun p => p.1.status) h) (by simp)
        next hval =>
          simp only [Prod.mk.injEq, Response.mk.injEq,
            ResPayload.route.injEq] at h
          obtain ⟨⟨-, hroute⟩, hstore⟩ := h
          subst hroute
          simp only [Bool.not_eq_true] at hcond hany
          rw [Bool.not_eq_false'] at hcond
          exact ⟨hcond, hcast, hany, rfl, hstore.symm⟩

lemma sanitize_jsOr_default {c : JVal} (h : ∀ u, c ≠ .str u) :
    sanitize (jsOr c (.str "")) = "" := by
  unfold jsOr
  split
  · cases c with
    | str u => exact absurd rfl (h u)
    | undefined => rfl
    | null => rfl
    | bool b => rfl
    | num n => rfl
    | obj fields => rfl
    | arr xs => rfl
  · rfl

lemma normalizeAddress_eq_empty {v : JVal} (hns : ∀ u, v ≠ .str u)
    (hfa : ∀ u, v.getField "address" ≠ .str u) :
    normalizeAddress v = "" := by
  cases v with
  | str u => exact absurd rfl (hns u)
  | undefined => rfl
  | null => rfl
  | bool b => rfl
  | num n => rfl
  | arr xs => rfl
  | obj fields => exact sanitize_jsOr_default hfa

lemma saveRoute_status_ne_400 {store : List Route} {body : SaveBody}
    {newId now : Nat}
    (hcond : (body.userId.truthy && body.origin.truthy &&
      body.destination.truthy) = true) :
    (saveRoute store body newId now).1.status ≠ 400 := by
  unfold saveRoute
  rw [hcond, if_neg (fun h => Bool.noConfusion h)]
  split
  · simp
  · split
    · simp
    · split
      · simp
      · simp

lemma saveRoute_409_iff {store : List Route} {body : SaveBody}
    {newId now : Nat} {uid : String}
    (hcond : (body.userId.truthy && body.origin.truthy &&
      body.destination.truthy) = true)
    (hcast : castString body.userId = some uid) :
    ((saveRoute store body newId now).1.status = 409 ↔
      store.any (matchesTriple uid (normalizeAddress body.origin)
        (normalizeAddress body.destination)) = true) := by
  by_cases hany : store.any (matchesTriple uid (normalizeAddress body.origin)
      (normalizeAddress body.destination)) = true
  · have heval : saveRoute store body newId now =
        (⟨409, .msg "Route already saved!"⟩, store) := by
      unfold saveRoute
      rw [hcond, if_neg (fun h => Bool.noConfusion h), hcast]
      dsimp only
      rw [if_pos hany]
    rw [heval, hany]
    simp
  · rw [Bool.not_eq_true] at hany
    unfold saveRoute
    rw [hcond, if_neg (fun h => Bool.noConfusion h), hcast]
    dsimp only
    rw [if_neg (fun h => Bool.noConfusion (hany ▸ h)), hany]
    split
    · simp
    · simp

/-- Claim C4 counterexample: a create request in which userId, origin
and destination are all present (none of them destructures to
undefined) but userId is the empty string is rejected with 400,
refuting "when all three are present (of any shape) the 400 branch is
not taken". -/
theorem save_route_validation_counterexample :
    (SaveBody.mk (.str "") (.str "a") (.str "b")).userId ≠ .undefined ∧
    (SaveBody.mk (.str "") (.str "a") (.str "b")).origin ≠ .undefined ∧
    (SaveBody.mk (.str "") (.str "a") (.str "b")).destination ≠ .undefined ∧
    (saveRoute [] (SaveBody.mk (.str "") (.str "a") (.str "b")) 1 0).1.status
      = 400 :=
  ⟨nofun, nofun, nofun, rfl⟩

/-- Claim C4 (amended): the create operation returns 400 exactly when
at least one of userId, origin, destination is JavaScript-falsy
(absent/undefined, null, false, 0, or the empty string); an absent
field always yields 400, but a present falsy value does too, and when
all three are truthy the 400 branch is not taken. -/
theorem save_route_validation_amended (store : List Route) (body : SaveBody)
    (newId now : Nat) :
    (saveRoute store body newId now).1.status = 400 ↔
      (body.userId.truthy && body.origin.truthy && body.destination.truthy)
        = false := by
  unfold saveRoute
  split
  next hcond =>
    rw [Bool.not_eq_true'] at hcond
    simp [hcond]
  next hcond =>
    rw [Bool.not_eq_true, Bool.not_eq_false'] at hcond
    split
    · simp [hcond]
    · split
      · simp [hcond]
      · split
        · simp [hcond]
        · simp [hcond]

/-- Claim C3 counterexample: a successful create whose persisted and
returned origin.address is not the trimmed, 200-capped input.  The
trimmed input longOrigin places a space at index 199; the cap keeps
it, and the schema's trim setter then strips it at document
construction, so the record carries xs199 while trim-then-truncate
gives xs199 followed by a space. -/
theorem save_route_sanitizes_counterexample :
    (saveRoute [] (SaveBody.mk (.str "u") (.str longOrigin) (.str "b"))
        1 0).1 = ⟨200, .route (Route.mk 1 "u" xs199 "b" 0)⟩ ∧
    xs199 ≠ jsSubstring (jsTrim longOrigin) 200 := by
  decide

/-- Claim C3 (amended): on success the returned and persisted record's
addresses equal the input address trimmed, truncated to 200 characters
and re-trimmed by the schema's trim setter (differing from plain
trim-then-truncate only when the truncation exposes trailing
whitespace); and an origin (symmetrically destination) address that
trims to the empty string never yields a record: over stores whose
records carry the required non-empty address fields, the save attempt
is rejected by the required validator with 500 and the store is
unchanged. -/
theorem save_route_sanitizes :
    (∀ (store store1 : List Route) (body : SaveBody) (s t : String)
        (newId now : Nat) (r : Route),
        AddrShape body.origin s → AddrShape body.destination t →
        saveRoute store body newId now = (⟨200, .route r⟩, store1) →
        r.originAddress = jsTrim (jsSubstring (jsTrim s) 200) ∧
        r.destinationAddress = jsTrim (jsSubstring (jsTrim t) 200) ∧
        store1 = store ++ [r]) ∧
    (∀ (store : List Route) (body : SaveBody) (s : String) (newId now : Nat),
        ((AddrShape body.origin s ∧ (∀ r ∈ store, r.originAddress ≠ "")) ∨
          (AddrShape body.destination s ∧
            (∀ r ∈ store, r.destinationAddress ≠ ""))) →
        jsTrim s = "" →
        body.userId.truthy = true → body.origin.truthy = true →
        body.destination.truthy = true →
        (saveRoute store body newId now).1.status = 500 ∧
        (saveRoute store body newId now).2 = store) := by
  constructor
  · intro store store1 body s t newId now r ho hd h
    obtain ⟨-, -, -, hrec, hstore1⟩ := saveRoute_ok_inv h
    refine ⟨?_, ?_, hstore1⟩
    · rw [hrec]
      exact congrArg jsTrim (normalizeAddress_of_addrShape ho)
    · rw [hrec]
      exact congrArg jsTrim (normalizeAddress_of_addrShape hd)
  · intro store body s newId now hside hts htu hto htd
    have hcond : (body.userId.truthy && body.origin.truthy &&
        body.destination.truthy) = true := by
      rw [htu, hto, htd]
      rfl
    cases hcast : castString body.userId with
    | none =>
        have heval : saveRoute store body newId now =
            (⟨500, .msg "Failed to save route"⟩, store) := by
          unfold saveRoute
          rw [hcond, if_neg (fun h => Bool.noConfusion h), hcast]
        exact ⟨by rw [heval], by rw [heval]⟩
    | some uid =>
        rcases hside with ⟨hshape, hwf⟩ | ⟨hshape, hwf⟩
        · have hnorm : normalizeAddress body.origin = "" := by
            rw [normalizeAddress_of_addrShape hshape, hts]
            rfl
          have hany : store.any (matchesTriple uid
              (normalizeAddress body.origin)
              (normalizeAddress body.destination)) = false := by
            rw [List.any_eq_false]
            intro a ha hma
            rcases matchesTriple_eq_true.mp hma with ⟨-, h2, -⟩
            exact hwf a ha (h2.trans hnorm)
          have hval : (uid == "" ||
              jsTrim (normalizeAddress body.origin) == "" ||
              jsTrim (normalizeAddress body.destination) == "") = true := by
            rw [hnorm, (by decide : (jsTrim ("" : String) == "") = true)]
            simp
          have heval : saveRoute store body newId now =
              (⟨500, .msg "Failed to save route"⟩, store) := by
            unfold saveRoute
            rw [hcond, if_neg (fun h => Bool.noConfusion h), hcast]
            dsimp only
            rw [if_neg (fun h => Bool.noConfusion (hany ▸ h)), if_pos hval]
          exact ⟨by rw [heval], by rw [heval]⟩
        · have hnorm : normalizeAddress body.destination = "" := by
            rw [normalizeAddress_of_addrShape hshape, hts]
            rfl
          have hany : store.any (matchesTriple uid
              (normalizeAddress body.origin)
              (normalizeAddress body.destination)) = false := by
            rw [List.any_eq_false]
            intro a ha hma
            rcases matchesTriple_eq_true.mp hma with ⟨-, -, h3⟩
            exact hwf a ha (h3.trans hnorm)
          have hval : (uid == "" ||
              jsTrim (normalizeAddress body.origin) == "" ||
              jsTrim (normalizeAddress body.destination) == "") = true := by
            rw [hnorm, (by decide : (jsTrim ("" : String) == "") = true)]
            simp
          have heval : saveRoute store body newId now =
              (⟨500, .msg "Failed to save route"⟩, store) := by
            unfold saveRoute
            rw [hcond, if_neg (fun h => Bool.noConfusion h), hcast]
            dsimp only
            rw [if_neg (fun h => Bool.noConfusion (hany ▸ h)), if_pos hval]
          exact ⟨by rw [heval], by rw [heval]⟩

/-- Claim C3 witness: a concrete successful create with a string origin
carrying surrounding whitespace and an object destination, and a
concrete whitespace-only origin rejected with 500. -/
theorem save_route_sanitizes_witness :
    ((Route.mk 1 "u" "home" "wo rk" 0).originAddress =
        jsTrim (jsSubstring (jsTrim "  home  ") 200) ∧
      (Route.mk 1 "u" "home" "wo rk" 0).destinationAddress =
        jsTrim (jsSubstring (jsTrim " wo rk ") 200) ∧
      [Route.mk 1 "u" "home" "wo rk" 0] =
        [] ++ [Route.mk 1 "u" "home" "wo rk" 0]) ∧
    ((saveRoute [] (SaveBody.mk (.str "u") (.str "   ") (.str "work"))
        1 0).1.status = 500 ∧
      (saveRoute [] (SaveBody.mk (.str "u") (.str "   ") (.str "work"))
        1 0).2 = []) :=
  ⟨save_route_sanitizes.1 [] [Route.mk 1 "u" "home" "wo rk" 0]
      (SaveBody.mk (.str "u") (.str "  home  ")
        (.obj [("address", .str " wo rk ")]))
      "  home  " " wo rk " 1 0 (Route.mk 1 "u" "home" "wo rk" 0)
      (Or.inl rfl) (Or.inr ⟨fun u => nofun, rfl⟩) (by decide),
   save_route_sanitizes.2 []
      (SaveBody.mk (.str "u") (.str "   ") (.str "work")) "   " 1 0
      (Or.inl ⟨Or.inl rfl, by decide⟩) (by decide) (by decide) (by decide)
      (by decide)⟩

/-- Claim C5 counterexample: a list request whose userId query
parameter is present but empty is answered 400, not with the (empty)
200 list of matching records the claim requires for every supplied
userId. -/
theorem list_routes_counterexample :
    (listRoutes [] (some "")).1 = ⟨400, .msg "User ID required"⟩ ∧
    (listRoutes [] (some "")).1.status ≠ 200 := by decide

/-- Claim C5 (amended): a list request with an absent or empty userId
yields 400; for a non-empty userId the operation returns, store
unchanged, exactly the records with that userId ordered by createdAt
descending and capped at 50 results (all of them when the user owns at
most 50). -/
theorem list_routes_spec :
    (∀ store : List Route, (listRoutes store none).1.status = 400 ∧
        (listRoutes store none).2 = store) ∧
    (∀ store : List Route, (listRoutes store (some "")).1.status = 400 ∧
        (listRoutes store (some "")).2 = store) ∧
    (∀ (store : List Route) (uid : String), uid ≠ "" →
      ∃ rs : List Route,
        listRoutes store (some uid) = (⟨200, .routes rs⟩, store) ∧
        rs.length ≤ 50 ∧
        List.Sorted byNewest rs ∧
        (∀ r ∈ rs, r ∈ store ∧ r.userId = uid) ∧
        ((store.filter (fun r => r.userId == uid)).length ≤ 50 →
          ∀ r : Route, r ∈ rs ↔ (r ∈ store ∧ r.userId = uid))) := by
  refine ⟨fun store => ⟨rfl, rfl⟩, fun store => ⟨rfl, rfl⟩, ?_⟩
  intro store uid hne
  have hcond : (!(strTruthy (some uid))) = false := by
    simp [strTruthy, hne]
  refine ⟨(List.insertionSort byNewest
      (store.filter (fun r => r.userId == uid))).take 50, ?_, ?_, ?_, ?_, ?_⟩
  · unfold listRoutes
    rw [hcond]
    simp
  · exact List.length_take_le 50 _
  · exact List.Pairwise.sublist (List.take_sublist _ _)
      (List.sorted_insertionSort byNewest _)
  · intro r hrm
    have : r ∈ store.filter (fun r => r.userId == uid) := by
      have h1 := List.mem_of_mem_take hrm
      rwa [List.mem_insertionSort] at h1
    rcases List.mem_filter.mp this with ⟨h2, h3⟩
    exact ⟨h2, by simpa using h3⟩
  · intro hlen r
    have hlen2 : (List.insertionSort byNewest
        (store.filter (fun r => r.userId == uid))).length ≤ 50 := by
      rw [(List.perm_insertionSort byNewest _).length_eq]
      exact hlen
    rw [List.take_of_length_le hlen2, List.mem_insertionSort, List.mem_filter]
    simp

/-- Claim C5 witness: the amended statement evaluated at a concrete
store containing records of two users. -/
theorem list_routes_spec_witness :
    ∃ rs : List Route,
      listRoutes [Route.mk 1 "u" "a" "b" 5, Route.mk 2 "v" "c" "d" 9,
          Route.mk 3 "u" "e" "f" 7] (some "u") =
        (⟨200, .routes rs⟩,
          [Route.mk 1 "u" "a" "b" 5, Route.mk 2 "v" "c" "d" 9,
            Route.mk 3 "u" "e" "f" 7]) ∧
      rs.length ≤ 50 ∧
      List.Sorted byNewest rs ∧
      (∀ r ∈ rs, r ∈ [Route.mk 1 "u" "a" "b" 5, Route.mk 2 "v" "c" "d" 9,
          Route.mk 3 "u" "e" "f" 7] ∧ r.userId = "u") ∧
      (((List.filter (fun r => r.userId == "u")
          [Route.mk 1 "u" "a" "b" 5, Route.mk 2 "v" "c" "d" 9,
            Route.mk 3 "u" "e" "f" 7]).length ≤ 50 →
        ∀ r : Route, r ∈ rs ↔
          (r ∈ [Route.mk 1 "u" "a" "b" 5, Route.mk 2 "v" "c" "d" 9,
              Route.mk 3 "u" "e" "f" 7] ∧ r.userId = "u"))) :=
  list_routes_spec.2.2
    [Route.mk 1 "u" "a" "b" 5, Route.mk 2 "v" "c" "d" 9,
      Route.mk 3 "u" "e" "f" 7] "u" (by decide)

lemma deleteRoute_no_match {store : List Route} {id : Nat} {uid : String}
    (hne : uid ≠ "")
    (hnomatch : ∀ r ∈ store, ¬(r.id = id ∧ r.userId = uid)) :
    (deleteRoute store id (some uid)).1.status = 404 ∧
    (deleteRoute store id (some uid)).2 = store := by
  have hcond : (!(strTruthy (some uid))) = false := by simp [strTruthy, hne]
  have hany : store.any (matchesIdUser id ((some uid).getD "")) = false := by
    rw [List.any_eq_false]
    intro a ha hma
    exact hnomatch a ha (matchesIdUser_eq_true.mp hma)
  have heval : deleteRoute store id (some uid) =
      (⟨404, .msg "Route not found"⟩, store) := by
    unfold deleteRoute
    rw [hcond, if_neg (fun h => Bool.noConfusion h),
      if_neg (fun h => Bool.noConfusion (hany ▸ h))]
  exact ⟨by rw [heval], by rw [heval]⟩

/-- Claim C6 counterexample: with a supplied but empty userId and no
record matching both fields the delete operation answers 400, not the
404 the claim requires whenever no record matches both fields. -/
theorem delete_route_counterexample :
    (deleteRoute [] 7 (some "")).1 = ⟨400, .msg "User ID required"⟩ ∧
    (deleteRoute [] 7 (some "")).1.status ≠ 404 := by decide

/-- Claim C6 (amended): provided the supplied userId is non-empty (an
absent or empty userId is answered 400 before any lookup) and the
store's ids are pairwise distinct (they are store-assigned
identifiers), a delete whose id and userId both match a record removes
exactly that record, leaves every other record unchanged and returns
the deleted id; when no record matches both fields the operation
returns 404 and leaves the store unchanged. -/
theorem delete_route_spec :
    (∀ (store : List Route) (id : Nat) (uid : String) (r : Route),
        store.Pairwise (fun a b => a.id ≠ b.id) →
        uid ≠ "" → r ∈ store → r.id = id → r.userId = uid →
        (deleteRoute store id (some uid)).1 =
          ⟨200, .deleted "Route deleted successfully" id⟩ ∧
        ∃ l1 l2, store = l1 ++ r :: l2 ∧
          (deleteRoute store id (some uid)).2 = l1 ++ l2) ∧
    (∀ (store : List Route) (id : Nat) (uid : String),
        uid ≠ "" → (∀ r ∈ store, ¬(r.id = id ∧ r.userId = uid)) →
        (deleteRoute store id (some uid)).1.status = 404 ∧
        (deleteRoute store id (some uid)).2 = store) := by
  constructor
  · intro store id uid r hp hne hr hid huid
    have hcond : (!(strTruthy (some uid))) = false := by simp [strTruthy, hne]
    have hmr : matchesIdUser id uid r = true :=
      matchesIdUser_eq_true.mpr ⟨hid, huid⟩
    have hany : store.any (matchesIdUser id ((some uid).getD "")) = true := by
      rw [List.any_eq_true]
      exact ⟨r, hr, hmr⟩
    have heval : deleteRoute store id (some uid) =
        (⟨200, .deleted "Route deleted successfully" id⟩,
          store.eraseP (matchesIdUser id uid)) := by
      unfold deleteRoute
      rw [hcond, if_neg (fun h => Bool.noConfusion h), if_pos hany]
      rfl
    obtain ⟨a, l1, l2, hl1, hpa, hdecomp, herase⟩ :=
      List.exists_of_eraseP hr hmr
    have hamem : a ∈ store := by
      rw [hdecomp]
      exact List.mem_append_right _ (List.mem_cons_self a l2)
    have haid : a.id = id := (matchesIdUser_eq_true.mp hpa).1
    have hra : r = a := eq_of_mem_of_id_eq hp hr hamem (hid.trans haid.symm)
    refine ⟨by rw [heval], l1, l2, ?_, ?_⟩
    · rw [hra]
      exact hdecomp
    · rw [heval]
      exact herase
  · intro store id uid hne hnomatch
    exact deleteRoute_no_match hne hnomatch

/-- Claim C6 witness: deleting an owned record from a concrete
two-record store, and a 404 on a concrete non-matching request. -/
theorem delete_route_spec_witness :
    ((deleteRoute [Route.mk 1 "u" "a" "b" 0, Route.mk 2 "v" "c" "d" 1] 1
        (some "u")).1 = ⟨200, .deleted "Route deleted successfully" 1⟩ ∧
      ∃ l1 l2, [Route.mk 1 "u" "a" "b" 0, Route.mk 2 "v" "c" "d" 1] =
          l1 ++ Route.mk 1 "u" "a" "b" 0 :: l2 ∧
        (deleteRoute [Route.mk 1 "u" "a" "b" 0, Route.mk 2 "v" "c" "d" 1] 1
          (some "u")).2 = l1 ++ l2) ∧
    ((deleteRoute [Route.mk 1 "u" "a" "b" 0, Route.mk 2 "v" "c" "d" 1] 2
        (some "u")).1.status = 404 ∧
      (deleteRoute [Route.mk 1 "u" "a" "b" 0, Route.mk 2 "v" "c" "d" 1] 2
        (some "u")).2 = [Route.mk 1 "u" "a" "b" 0, Route.mk 2 "v" "c" "d" 1]) :=
  ⟨delete_route_spec.1 [Route.mk 1 "u" "a" "b" 0, Route.mk 2 "v" "c" "d" 1] 1
      "u" (Route.mk 1 "u" "a" "b" 0) (by decide) (by decide) (by decide)
      (by decide) (by decide),
   delete_route_spec.2 [Route.mk 1 "u" "a" "b" 0, Route.mk 2 "v" "c" "d" 1] 2
      "u" (by decide) (by decide)⟩

/-- Claim C7 counterexample: the store holds a record with the
requested id owned by "alice", a different userId than the supplied
empty string; the claim requires 404, but the handler answers 400 (the
store is left intact in both readings). -/
theorem delete_route_wrong_user_counterexample :
    (Route.mk 1 "alice" "a" "b" 0).id = 1 ∧
    (Route.mk 1 "alice" "a" "b" 0).userId ≠ "" ∧
    (deleteRoute [Route.mk 1 "alice" "a" "b" 0] 1 (some "")).1.status = 400 ∧
    (deleteRoute [Route.mk 1 "alice" "a" "b" 0] 1 (some "")).1.status ≠ 404 ∧
    (deleteRoute [Route.mk 1 "alice" "a" "b" 0] 1 (some "")).2 =
      [Route.mk 1 "alice" "a" "b" 0] := by decide

/-- Claim C7 (amended): provided the supplied userId is non-empty (an
absent or empty userId is answered 400, likewise leaving the store
unchanged) and the store's ids are pairwise distinct, deleting a record
with the requested id but a different owner returns 404 and leaves the
store unchanged. -/
theorem delete_route_wrong_user (store : List Route) (id : Nat)
    (uid : String) (r : Route) :
    store.Pairwise (fun a b => a.id ≠ b.id) →
    uid ≠ "" → r ∈ store → r.id = id → r.userId ≠ uid →
    (deleteRoute store id (some uid)).1.status = 404 ∧
    (deleteRoute store id (some uid)).2 = store := by
  intro hp hne hr hid huid
  refine deleteRoute_no_match hne ?_
  intro b hb ⟨hbid, hbuid⟩
  have : b = r := eq_of_mem_of_id_eq hp hb hr (hbid.trans hid.symm)
  exact huid (this ▸ hbuid)

/-- Claim C7 witness: a concrete delete request for a record owned by a
different user answers 404 and preserves the store. -/
theorem delete_route_wrong_user_witness :
    (deleteRoute [Route.mk 1 "alice" "a" "b" 0] 1 (some "bob")).1.status
      = 404 ∧
    (deleteRoute [Route.mk 1 "alice" "a" "b" 0] 1 (some "bob")).2 =
      [Route.mk 1 "alice" "a" "b" 0] :=
  delete_route_wrong_user [Route.mk 1 "alice" "a" "b" 0] 1 "bob"
    (Route.mk 1 "alice" "a" "b" 0) (by decide) (by decide) (by decide)
    (by decide) (by decide)

/-- Claim C8 counterexample: with the configuration variable set to the
empty string the endpoint answers 500, not 200 with the configured
value as the claim requires whenever the variable is not absent. -/
theorem google_key_counterexample :
    (googleKey [] (some "")).1 = ⟨500, .msg "API key not configured"⟩ ∧
    (googleKey [] (some "")).1 ≠ ⟨200, .key ""⟩ := by decide

/-- Claim C8 (amended): the google-key operation returns 500 when the
configuration variable is absent or empty, and otherwise 200 with a
body whose key field is exactly the configured value; it never
modifies the store. -/
theorem google_key_spec :
    (∀ store : List Route, googleKey store none =
        (⟨500, .msg "API key not configured"⟩, store)) ∧
    (∀ store : List Route, googleKey store (some "") =
        (⟨500, .msg "API key not configured"⟩, store)) ∧
    (∀ (store : List Route) (k : String), k ≠ "" →
        googleKey store (some k) = (⟨200, .key k⟩, store)) := by
  refine ⟨fun store => rfl, fun store => rfl, ?_⟩
  intro store k hk
  unfold googleKey
  have hcond : (!(strTruthy (some k))) = false := by simp [strTruthy, hk]
  rw [hcond]
  simp

/-- Claim C8 witness: a concrete configured key is returned verbatim
with status 200, store untouched. -/
theorem google_key_spec_witness :
    googleKey [] (some "secret-key") = (⟨200, .key "secret-key"⟩, []) :=
  google_key_spec.2.2 [] "secret-key" (by decide)

/-- Claim C9: a create request whose origin (respectively destination)
is a non-string truthy value with a missing or non-string address field
passes the required-field check (no 400); the normalization step yields
the empty string, which is what the duplicate-existence check queries;
and the attempted save uses that empty address, which the schema's
required validator rejects: when no record matches the empty-address
triple the operation answers 500 and persists nothing. -/
theorem save_route_empty_address_normalization :
    (∀ (store : List Route) (body : SaveBody) (newId now : Nat),
      body.origin.truthy = true →
      (∀ u, body.origin ≠ .str u) →
      (∀ u, body.origin.getField "address" ≠ .str u) →
      body.userId.truthy = true → body.destination.truthy = true →
      (saveRoute store body newId now).1.status ≠ 400 ∧
      normalizeAddress body.origin = "" ∧
      (∀ uid, castString body.userId = some uid →
        (((saveRoute store body newId now).1.status = 409) ↔
          ∃ r ∈ store, r.userId = uid ∧ r.originAddress = "" ∧
            r.destinationAddress = normalizeAddress body.destination) ∧
        ((¬ ∃ r ∈ store, r.userId = uid ∧ r.originAddress = "" ∧
            r.destinationAddress = normalizeAddress body.destination) →
          (saveRoute store body newId now).1.status = 500 ∧
          (saveRoute store body newId now).2 = store))) ∧
    (∀ (store : List Route) (body : SaveBody) (newId now : Nat),
      body.destination.truthy = true →
      (∀ u, body.destination ≠ .str u) →
      (∀ u, body.destination.getField "address" ≠ .str u) →
      body.userId.truthy = true → body.origin.truthy = true →
      (saveRoute store body newId now).1.status ≠ 400 ∧
      normalizeAddress body.destination = "" ∧
      (∀ uid, castString body.userId = some uid →
        (((saveRoute store body newId now).1.status = 409) ↔
          ∃ r ∈ store, r.userId = uid ∧
            r.originAddress = normalizeAddress body.origin ∧
            r.destinationAddress = "") ∧
        ((¬ ∃ r ∈ store, r.userId = uid ∧
            r.originAddress = normalizeAddress body.origin ∧
            r.destinationAddress = "") →
          (saveRoute store body newId now).1.status = 500 ∧
          (saveRoute store body newId now).2 = store))) := by
  constructor
  · intro store body newId now hto hns hfa htu htd
    have hnorm : normalizeAddress body.origin = "" :=
      normalizeAddress_eq_empty hns hfa
    have hcond : (body.userId.truthy && body.origin.truthy &&
        body.destination.truthy) = true := by
      rw [htu, hto, htd]
      rfl
    refine ⟨saveRoute_status_ne_400 hcond, hnorm, ?_⟩
    intro uid hcast
    constructor
    · rw [saveRoute_409_iff hcond hcast, List.any_eq_true]
      constructor
      · rintro ⟨r, hr, hm⟩
        rcases matchesTriple_eq_true.mp hm with ⟨h1, h2, h3⟩
        exact ⟨r, hr, h1, h2.trans hnorm, h3⟩
      · rintro ⟨r, hr, h1, h2, h3⟩
        exact ⟨r, hr, matchesTriple_eq_true.mpr
          ⟨h1, h2.trans hnorm.symm, h3⟩⟩
    · intro hnodup
      have hany : store.any (matchesTriple uid (normalizeAddress body.origin)
          (normalizeAddress body.destination)) = false := by
        rw [List.any_eq_false]
        intro a ha hma
        rcases matchesTriple_eq_true.mp hma with ⟨h1, h2, h3⟩
        exact hnodup ⟨a, ha, h1, h2.trans hnorm, h3⟩
      have hval : (uid == "" ||
          jsTrim (normalizeAddress body.origin) == "" ||
          jsTrim (normalizeAddress body.destination) == "") = true := by
        rw [hnorm, (by decide : (jsTrim ("" : String) == "") = true)]
        simp
      have heval : saveRoute store body newId now =
          (⟨500, .msg "Failed to save route"⟩, store) := by
        unfold saveRoute
        rw [hcond, if_neg (fun h => Bool.noConfusion h), hcast]
        dsimp only
        rw [if_neg (fun h => Bool.noConfusion (hany ▸ h)), if_pos hval]
      exact ⟨by rw [heval], by rw [heval]⟩
  · intro store body newId now htd hns hfa htu hto
    have hnorm : normalizeAddress body.destination = "" :=
      normalizeAddress_eq_empty hns hfa
    have hcond : (body.userId.truthy && body.origin.truthy &&
        body.destination.truthy) = true := by
      rw [htu, hto, htd]
      rfl
    refine ⟨saveRoute_status_ne_400 hcond, hnorm, ?_⟩
    intro uid hcast
    constructor
    · rw [saveRoute_409_iff hcond hcast, List.any_eq_true]
      constructor
      · rintro ⟨r, hr, hm⟩
        rcases matchesTriple_eq_true.mp hm with ⟨h1, h2, h3⟩
        exact ⟨r, hr, h1, h2, h3.trans hnorm⟩
      · rintro ⟨r, hr, h1, h2, h3⟩
        exact ⟨r, hr, matchesTriple_eq_true.mpr
          ⟨h1, h2, h3.trans hnorm.symm⟩⟩
    · intro hnodup
      have hany : store.any (matchesTriple uid (normalizeAddress body.origin)
          (normalizeAddress body.destination)) = false := by
        rw [List.any_eq_false]
        intro a ha hma
        rcases matchesTriple_eq_true.mp hma with ⟨h1, h2, h3⟩
        exact hnodup ⟨a, ha, h1, h2, h3.trans hnorm⟩
      have hval : (uid == "" ||
          jsTrim (normalizeAddress body.origin) == "" ||
          jsTrim (normalizeAddress body.destination) == "") = true := by
        rw [hnorm, (by decide : (jsTrim ("" : String) == "") = true)]
        simp
      have heval : saveRoute store body newId now =
          (⟨500, .msg "Failed to save route"⟩, store) := by
        unfold saveRoute
        rw [hcond, if_neg (fun h => Bool.noConfusion h), hcast]
        dsimp only
        rw [if_neg (fun h => Bool.noConfusion (hany ▸ h)), if_pos hval]
      exact ⟨by rw [heval], by rw [heval]⟩

/-- Claim C9 witness: an object origin with no address field on a
concrete store holding an empty-address record of the same user. -/
theorem save_route_empty_address_normalization_witness :
    (saveRoute [Route.mk 1 "u" "" "work" 0]
        (SaveBody.mk (.str "u") (.obj []) (.str "work")) 2 3).1.status ≠ 400 ∧
    normalizeAddress (.obj []) = "" ∧
    (∀ uid, castString (.str "u") = some uid →
      (((saveRoute [Route.mk 1 "u" "" "work" 0]
          (SaveBody.mk (.str "u") (.obj []) (.str "work")) 2 3).1.status
            = 409) ↔
        ∃ r ∈ [Route.mk 1 "u" "" "work" 0], r.userId = uid ∧
          r.originAddress = "" ∧
          r.destinationAddress = normalizeAddress (.str "work")) ∧
      ((¬ ∃ r ∈ [Route.mk 1 "u" "" "work" 0], r.userId = uid ∧
          r.originAddress = "" ∧
          r.destinationAddress = normalizeAddress (.str "work")) →
        (saveRoute [Route.mk 1 "u" "" "work" 0]
          (SaveBody.mk (.str "u") (.obj []) (.str "work")) 2 3).1.status
            = 500 ∧
        (saveRoute [Route.mk 1 "u" "" "work" 0]
          (SaveBody.mk (.str "u") (.obj []) (.str "work")) 2 3).2 =
          [Route.mk 1 "u" "" "work" 0])) :=
  save_route_empty_address_normalization.1 [Route.mk 1 "u" "" "work" 0]
    (SaveBody.mk (.str "u") (.obj []) (.str "work")) 2 3
    rfl (fun u => nofun) (fun u => nofun) rfl (by decide)

/-- Claim C10: two-run noninterference of List: any two stores holding
exactly the same records of user u (and arbitrary records of other
users) produce identical responses to u's list request, and no record
of another user ever appears in u's listing. -/
theorem list_routes_noninterference (s1 s2 : List Route) (u : String) :
    s1.filter (fun r => r.userId == u) = s2.filter (fun r => r.userId == u) →
    (listRoutes s1 (some u)).1 = (listRoutes s2 (some u)).1 ∧
    (∀ rs : List Route, (listRoutes s1 (some u)).1.payload = .routes rs →
      ∀ r ∈ rs, r.userId = u) := by
  intro hfil
  by_cases hu : u = ""
  · subst hu
    constructor
    · rfl
    · intro rs hpayload
      simp [listRoutes, strTruthy] at hpayload
  · have hcond : (!(strTruthy (some u))) = false := by simp [strTruthy, hu]
    have e1 : listRoutes s1 (some u) =
        (⟨200, .routes ((List.insertionSort byNewest
          (s1.filter (fun r => r.userId == u))).take 50)⟩, s1) := by
      unfold listRoutes
      rw [hcond, if_neg (fun h => Bool.noConfusion h)]
      rfl
    have e2 : listRoutes s2 (some u) =
        (⟨200, .routes ((List.insertionSort byNewest
          (s2.filter (fun r => r.userId == u))).take 50)⟩, s2) := by
      unfold listRoutes
      rw [hcond, if_neg (fun h => Bool.noConfusion h)]
      rfl
    constructor
    · rw [e1, e2, hfil]
    · intro rs hpayload r hr
      rw [e1] at hpayload
      dsimp only at hpayload
      cases hpayload
      have hmem : r ∈ s1.filter (fun r => r.userId == u) := by
        have h1 := List.mem_of_mem_take hr
        rwa [List.mem_insertionSort] at h1
      simpa using (List.mem_filter.mp hmem).2

/-- Claim C10 witness: two concrete stores agreeing on user u's records
but holding different records of other users. -/
theorem list_routes_noninterference_witness :
    (listRoutes [Route.mk 1 "u" "a" "b" 3, Route.mk 2 "v" "x" "y" 9]
        (some "u")).1 =
      (listRoutes [Route.mk 3 "w" "p" "q" 7, Route.mk 1 "u" "a" "b" 3]
        (some "u")).1 ∧
    (∀ rs : List Route,
      (listRoutes [Route.mk 1 "u" "a" "b" 3, Route.mk 2 "v" "x" "y" 9]
        (some "u")).1.payload = .routes rs →
      ∀ r ∈ rs, r.userId = "u") :=
  list_routes_noninterference
    [Route.mk 1 "u" "a" "b" 3, Route.mk 2 "v" "x" "y" 9]
    [Route.mk 3 "w" "p" "q" 7, Route.mk 1 "u" "a" "b" 3] "u" (by decide)
